import Mathlib

/-!
Shallow embedding of the abacus Lightning-node agent (djkazic/abacus) for
checking its natural-language specification against the code.

Each definition is translated from a named function of the Python source:
  * src/tools/fee_management_tools.py  (liquidity analysis, swap quoting)
  * src/tools/rebalance_opportunities.py (rebalance matching)
  * src/tools/rebalance_tools.py       (circular rebalance execution)
  * src/tools/loop_tools.py            (loop-out initiation)
  * src/tools/lnd_tools.py             (channel-opening planner, LNDClient)
  * src/tools/network_analysis_tools.py (bounded BFS peer exploration)
  * src/main.py                        (action dispatcher)

Modelling conventions:
  * Python ints are Int (or Nat where the source value is a count that is
    never negative by construction).
  * Python floating-point comparisons against the constants 1.1, 0.8, 0.25,
    0.75 and the float products `x * 0.004` etc. are embedded as exact
    rational comparisons written with integer arithmetic; over the value
    ranges these functions handle, the float computation agrees with the
    exact one, and no claim depends on the astronomically large inputs where
    they could differ.
  * Collaborator RPC calls (LND, loop daemon, pricing) are parameters:
    either pre-fetched response data handed to the embedded function, or an
    opaque function argument whose invocations the embedding records.
  * A Python dict keyed by channel id built from a list comprehension is
    embedded as last-occurrence lookup (later duplicate keys override).
-/

namespace Abacus

/-- The hard-coded LOOP node public key (config.py / lnd_tools.py). -/
def LOOP_NODE_PUBKEY : String :=
  "021c97a90a411ff2b10dc2a8e32de2f29d2fa49d41bfbb52bd416e460db0747d0d"

/-- A channel record as produced by LNDClient.list_lnd_channels (the fields
relevant to the embedded functions; the formatted balance-percentage string
and alias bookkeeping fields are not modelled, no claim refers to them). -/
structure Channel where
  chan_id : String
  remote_pubkey : String
  capacity : Int
  local_balance : Int
  remote_balance : Int
  deriving Repr, DecidableEq

/-- A forwarding event as consumed by analyze_channel_liquidity_flow.
An absent chan_id field (falsy in Python) is modelled as the empty string. -/
structure FwdEvent where
  chan_id_in : String
  chan_id_out : String
  amt_in_msat : Nat
  amt_out_msat : Nat
  timestamp_ns : Nat
  deriving Repr, DecidableEq

/-- A loop-out swap entry from LoopClient.list_loop_out_swaps. -/
structure Swap where
  state : String
  outgoing_chan_set : List String
  deriving Repr, DecidableEq

/-- Aggregated per-channel flow, the defaultdict value in
analyze_channel_liquidity_flow step 4. -/
structure Flow where
  inbound_msat : Nat
  outbound_msat : Nat
  last_forward_time : Option Nat
  deriving Repr, DecidableEq

/-- One step of the flow-aggregation loop of analyze_channel_liquidity_flow
(step 4), projected onto a single channel id `cid`: an event with
`chan_id_in = cid` (and truthy, i.e. nonempty) adds to the inbound bucket,
one with `chan_id_out = cid` to the outbound bucket, and both update the
latest-forward timestamp.  Timestamps are compared as raw nanosecond counts;
the source converts them through datetime, which is monotone. -/
def flowStep (cid : String) (f : Flow) (e : FwdEvent) : Flow :=
  let f1 :=
    if e.chan_id_in ≠ "" ∧ e.chan_id_in = cid then
      { f with
        inbound_msat := f.inbound_msat + e.amt_in_msat
        last_forward_time :=
          match f.last_forward_time with
          | none => some e.timestamp_ns
          | some t => if e.timestamp_ns > t then some e.timestamp_ns else some t }
    else f
  if e.chan_id_out ≠ "" ∧ e.chan_id_out = cid then
    { f1 with
      outbound_msat := f1.outbound_msat + e.amt_out_msat
      last_forward_time :=
        match f1.last_forward_time with
        | none => some e.timestamp_ns
        | some t => if e.timestamp_ns > t then some e.timestamp_ns else some t }
  else f1

/-- The per-channel projection of the flow_by_channel defaultdict: the dict
entry a channel id ends up with (or the all-zero default when no guarded
event mentions it, matching `flow_by_channel.get(chan_id, default)`). -/
def flowFor (events : List FwdEvent) (cid : String) : Flow :=
  events.foldl (flowStep cid) ⟨0, 0, none⟩

/-- Trend classification of analyze_channel_liquidity_flow (step 5).  The
source compares `inbound_flow > outbound_flow * 1.1` (and symmetrically) in
floating point; embedded as the exact comparison 10 * inbound > 11 *
outbound. -/
def liquidityTrend (inboundFlow outboundFlow : Nat) : String :=
  if 10 * inboundFlow > 11 * outboundFlow then "inbound"
  else if 10 * outboundFlow > 11 * inboundFlow then "outbound"
  else if inboundFlow > 0 ∨ outboundFlow > 0 then "balanced"
  else "stagnant"

/-- The same classification with the two threshold comparisons checked in
the opposite order, used to settle the order-independence part of the spec. -/
def liquidityTrendOutboundFirst (inboundFlow outboundFlow : Nat) : String :=
  if 10 * outboundFlow > 11 * inboundFlow then "outbound"
  else if 10 * inboundFlow > 11 * outboundFlow then "inbound"
  else if inboundFlow > 0 ∨ outboundFlow > 0 then "balanced"
  else "stagnant"

/-- _is_loop_out_candidate (fee_management_tools.py).  The float comparison
`local_balance / capacity > 0.8` is embedded exactly as
5 * local_balance > 4 * capacity (the source guards capacity = 0 first; the
unused `flow` parameter of the source is dropped). -/
def is_loop_out_candidate (ch : Channel) (pending_swaps : List Swap) : Bool :=
  if ch.capacity = 0 then false
  else if ¬ (5 * ch.local_balance > 4 * ch.capacity) then false
  else pending_swaps.all (fun s => ch.chan_id ∉ s.outgoing_chan_set)

/-- One classification record of analyze_channel_liquidity_flow. -/
structure ChannelAnalysis where
  channel_id : String
  local_balance : Int
  capacity : Int
  is_candidate : Bool
  liquidity_trend : String
  inbound_msat_7d : Nat
  outbound_msat_7d : Nat
  last_forward_time : Option Nat
  deriving Repr, DecidableEq

/-- The record built for one channel in step 5 of
analyze_channel_liquidity_flow. -/
def analysisRecord (events : List FwdEvent) (pending_swaps : List Swap)
    (ch : Channel) : ChannelAnalysis :=
  let flow := flowFor events ch.chan_id
  { channel_id := ch.chan_id
    local_balance := ch.local_balance
    capacity := ch.capacity
    is_candidate := is_loop_out_candidate ch pending_swaps
    liquidity_trend := liquidityTrend flow.inbound_msat flow.outbound_msat
    inbound_msat_7d := flow.inbound_msat
    outbound_msat_7d := flow.outbound_msat
    last_forward_time := flow.last_forward_time }

/-- Steps 4 and 5 of analyze_channel_liquidity_flow, given the already
fetched channel list, forwarding events and pending swaps (steps 1 to 3 are
collaborator fetches whose error responses return early).  The loop skips
any channel whose remote_pubkey is the LOOP node and appends one record per
remaining channel. -/
def analyze_channel_liquidity_flow (channels : List Channel)
    (events : List FwdEvent) (pending_swaps : List Swap) :
    List ChannelAnalysis :=
  (channels.filter (fun ch => ch.remote_pubkey ≠ LOOP_NODE_PUBKEY)).map
    (analysisRecord events pending_swaps)

/-- Last-occurrence lookup, the embedding of the Python dict comprehension
`{ch["chan_id"]: ch for ch in channels}` followed by `.get(str(channel_id))`
(later entries with the same key override earlier ones). -/
def lookupChannelLast (channels : List Channel) (cid : String) :
    Option Channel :=
  (channels.filter (fun ch => ch.chan_id = cid)).getLast?

/-- One per-channel result of calculate_and_quote_loop_outs
(fee_management_tools.py).  The `quote` field is `some q` exactly when the
source called _get_loop_out_quote (the pricing collaborator), with `q` the
collaborator's answer; `none` means no quote was requested. -/
structure ChannelQuote where
  channel_id : String
  status : String
  loop_out_amount_sat : Option Int
  quote : Option String
  message : Option String
  deriving Repr, DecidableEq

/-- The body of the per-channel loop of calculate_and_quote_loop_outs.
`quoteFn` is the pricing collaborator (_get_loop_out_quote) as an opaque
function from the requested amount to its response. -/
def quoteForChannel (channels : List Channel) (quoteFn : Int → String)
    (channel_id : String) : ChannelQuote :=
  match lookupChannelLast channels channel_id with
  | none => ⟨channel_id, "ERROR", none, none, some "Channel not found."⟩
  | some ch =>
    if ch.local_balance < 0 ∨ ch.capacity ≤ 0 then
      ⟨channel_id, "ERROR", none, none,
        some "Invalid local_balance or capacity found for channel."⟩
    else
      let target_balance := ch.capacity / 2
      let loop_out_amount := min (ch.local_balance - target_balance) 10000000
      if loop_out_amount ≤ 0 then
        ⟨channel_id, "OK", some 0, none,
          some "Channel is already balanced or has inbound liquidity."⟩
      else
        ⟨channel_id, "OK", some loop_out_amount,
          some (quoteFn loop_out_amount), none⟩

/-- calculate_and_quote_loop_outs (fee_management_tools.py), given the
already fetched channel list (a non-OK list_lnd_channels response returns
early before this loop). -/
def calculate_and_quote_loop_outs (channels : List Channel)
    (quoteFn : Int → String) (channel_ids : List String) :
    List ChannelQuote :=
  channel_ids.map (quoteForChannel channels quoteFn)

/-- The list_loop_out_swaps response as consumed by initiate_loop_out. -/
structure SwapsResp where
  status : String
  swaps : List Swap
  deriving Repr, DecidableEq

/-- The LoopOutRequest sent to the swap daemon by initiate_loop_out.  The
fee-ceiling fields (max_swap_fee etc.) are float-derived values no claim
refers to and are not modelled. -/
structure LoopOutReq where
  amt : Int
  outgoing_chan_set : List String
  deriving Repr, DecidableEq

/-- Result of initiate_loop_out: the returned status dict, plus `request =
some r` exactly when a LoopOut request `r` was sent to the swap daemon. -/
structure LoopOutcome where
  status : String
  message : Option String
  request : Option LoopOutReq
  deriving Repr, DecidableEq

/-- initiate_loop_out (loop_tools.py), with the two collaborator fetches it
performs handed in as data: `swapsResp` is the list_loop_out_swaps answer
and `(channelsStatus, channels)` the list_lnd_channels answer.  The final
LoopOut RPC itself is modelled as succeeding (an RPC error would only change
the returned status, not whether the request was sent). -/
def initiate_loop_out (swapsResp : SwapsResp) (channelsStatus : String)
    (channels : List Channel) (channel_id : String) : LoopOutcome :=
  if swapsResp.status = "OK" ∧ swapsResp.swaps.any (fun s =>
      s.state ∉ ["SUCCESS", "FAILED"] ∧ channel_id ∈ s.outgoing_chan_set) then
    ⟨"ERROR",
      some ("Channel " ++ channel_id ++
        " is already part of a pending Loop Out swap."), none⟩
  else if channelsStatus ≠ "OK" then
    ⟨channelsStatus, none, none⟩
  else
    match lookupChannelLast channels channel_id with
    | none => ⟨"ERROR", some ("Channel " ++ channel_id ++ " not found."), none⟩
    | some ch =>
      let target_balance := ch.capacity / 2
      let loop_out_amount := min (ch.local_balance - target_balance) 10000000
      if loop_out_amount ≤ 0 then
        ⟨"ERROR", some "Channel does not need a loop out.", none⟩
      else
        ⟨"OK", none, some ⟨loop_out_amount, [channel_id]⟩⟩

/-- One rebalance opportunity (rebalance_opportunities.py). -/
structure RebalanceOpportunity where
  incoming_channel_id : String
  outgoing_channel_id : String
  deriving Repr, DecidableEq

/-- Classification of a channel as low-outbound in
find_rebalance_opportunities: `outbound_percentage <= 25` where the source
computes `(local_balance / capacity) * 100 if capacity > 0 else 0` with
capacity = local_balance + remote_balance; embedded exactly as
4 * local_balance ≤ capacity when capacity is positive. -/
def isLowOutbound (ch : Channel) : Bool :=
  let cap := ch.local_balance + ch.remote_balance
  if 0 < cap then 4 * ch.local_balance ≤ cap else true

/-- Classification as high-outbound: `outbound_percentage >= 75`, embedded
exactly as 4 * local_balance ≥ 3 * capacity when capacity is positive. -/
def isHighOutbound (ch : Channel) : Bool :=
  let cap := ch.local_balance + ch.remote_balance
  if 0 < cap then 4 * ch.local_balance ≥ 3 * cap else false

/-- find_rebalance_opportunities (rebalance_opportunities.py), given the
already fetched channel list: split channels into the low-outbound group and
the high-outbound group (the latter excluding channels whose peer is the
LOOP node), then pair every low channel with every high channel.  The empty
result stands for both early "no channels" / "no opportunities" OK returns
of the source, which differ only in their message text. -/
def find_rebalance_opportunities (channels : List Channel) :
    List RebalanceOpportunity :=
  let low_outbound := channels.filter isLowOutbound
  let high_outbound := channels.filter
    (fun ch => isHighOutbound ch ∧ ch.remote_pubkey ≠ LOOP_NODE_PUBKEY)
  low_outbound.flatMap (fun low_chan =>
    high_outbound.map (fun high_chan =>
      ⟨low_chan.chan_id, high_chan.chan_id⟩))

/-- A candidate peer handed to propose_channel_opens. -/
structure PeerCandidate where
  pub_key : String
  deriving Repr, DecidableEq

/-- A proposed channel-opening operation (lnd_tools.py,
propose_channel_opens result payload). -/
inductive ProposalOp
  | single (node_pubkey : String) (local_funding_amount_sat : Nat)
      (sat_per_vbyte : Nat)
  | batch (channels : List (String × Nat)) (sat_per_vbyte : Nat)
  deriving Repr, DecidableEq

/-- Result of propose_channel_opens: an ERROR-status dict, an OK-status dict
carrying only a message, or a PROPOSED-status dict with operations. -/
inductive ProposeResult
  | errorRes (message : String)
  | okMsg (message : String)
  | proposed (operations : List ProposalOp)
  deriving Repr, DecidableEq

/-- The candidate-dropping loop of propose_channel_opens:
`while per_channel_amount < 5000000 and num_peers > 0:` decrement num_peers,
return the budget-too-small outcome (none) when it reaches zero, else
redivide.  Returns the surviving count and final per-channel share. -/
def adjustPeerCount (available_funds : Nat) :
    Nat → Nat → Option (Nat × Nat)
  | 0, per_channel_amount => some (0, per_channel_amount)
  | num_peers + 1, per_channel_amount =>
    if per_channel_amount < 5000000 then
      if num_peers = 0 then none
      else adjustPeerCount available_funds num_peers
        (available_funds / num_peers)
    else some (num_peers + 1, per_channel_amount)

/-- propose_channel_opens (lnd_tools.py), with the wallet-balance
collaborator response handed in as `(balance_status, confirmed_balance)`.
The available budget is `confirmed_balance - 1000000` (1M satoshi reserve,
Python int subtraction, hence the Int comparison for the insufficient-funds
guard). -/
def propose_channel_opens (peers : List PeerCandidate) (sat_per_vbyte : Nat)
    (balance_status : String) (confirmed_balance : Nat) : ProposeResult :=
  if peers = [] then
    .errorRes "No peers provided to open channels with."
  else if peers.length = 1 ∧
      (peers.head?.map PeerCandidate.pub_key) = some LOOP_NODE_PUBKEY then
    .proposed [.single LOOP_NODE_PUBKEY 30000000 sat_per_vbyte]
  else if balance_status ≠ "OK" then
    .errorRes "wallet balance fetch failed"
  else if confirmed_balance = 0 then
    .errorRes "Could not retrieve confirmed wallet balance."
  else if (confirmed_balance : Int) - 1000000 ≤ 0 then
    .errorRes "Insufficient funds for channel opening after reserve."
  else
    let available_funds := confirmed_balance - 1000000
    match adjustPeerCount available_funds peers.length
        (available_funds / peers.length) with
    | none =>
      .okMsg "Budget too small to open any channels of the minimum size (5M sats)."
    | some (num_peers, per_channel_amount) =>
      match peers.take num_peers with
      | [] => .okMsg "No suitable peers left after budget filtering."
      | [peer] =>
        .proposed [.single peer.pub_key per_channel_amount sat_per_vbyte]
      | final_peers =>
        .proposed [.batch
          (final_peers.map (fun p => (p.pub_key, per_channel_amount)))
          sat_per_vbyte]

/-- A collaborator call recorded while executing a circular rebalance
(rebalance_tools.py): the route query, the invoice creation and the payment,
each with the numeric arguments the source passes. -/
inductive RebCall
  | queryRoutes (amt_msat fee_limit_msat : Int)
  | addInvoice (value_msat : Int)
  | sendToRoute (total_amt_msat : Int)
  deriving Repr, DecidableEq

/-- Pre-fetched collaborator responses consumed by execute_rebalance.  Pub
keys of a channel are exposed as node1_pub / node2_pub of its channel-info
response; the boolean fields say whether the corresponding downstream call
succeeds. -/
structure RebalanceEnv where
  info_status : String
  identity_pubkey : String
  out_chan_status : String
  out_node1_pub : String
  out_node2_pub : String
  in_chan_status : String
  in_node1_pub : String
  in_node2_pub : String
  routes_status : String
  routes_found : Bool
  invoice_status : String
  r_hash : String
  payment_addr : String
  send_status : String
  deriving Repr, DecidableEq

/-- execute_rebalance (rebalance_tools.py): the requested amount is capped
at 20000 sats, then the route query, invoice and payment are all issued at
the capped amount.  `fee_limit_msat` is `int(amount_msat * (4000 /
1000000))` in the source: a float product truncated toward zero, which on
this range equals the exact `Int.tdiv (amount_msat * 4000) 1000000`.
Returns the final status string plus the ordered trace of collaborator
calls made. -/
def execute_rebalance (env : RebalanceEnv)
    (amount_sats : Int) : String × List RebCall :=
  let amount_sats := if amount_sats > 20000 then 20000 else amount_sats
  if env.info_status ≠ "OK" then (env.info_status, [])
  else
    let my_pubkey := env.identity_pubkey
    if env.out_chan_status ≠ "OK" then (env.out_chan_status, [])
    else
      let outgoing_peer_pubkey :=
        if env.out_node1_pub = my_pubkey then env.out_node2_pub
        else env.out_node1_pub
      if outgoing_peer_pubkey = LOOP_NODE_PUBKEY then ("ERROR", [])
      else if env.in_chan_status ≠ "OK" then (env.in_chan_status, [])
      else
        let amount_msat := amount_sats * 1000
        let fee_limit_msat := Int.tdiv (amount_msat * 4000) 1000000
        let trace0 := [RebCall.queryRoutes amount_msat fee_limit_msat]
        if env.routes_status ≠ "OK" then (env.routes_status, trace0)
        else if ¬ env.routes_found then ("ERROR", trace0)
        else
          let trace1 := trace0 ++ [RebCall.addInvoice (amount_sats * 1000)]
          if env.invoice_status ≠ "OK" then (env.invoice_status, trace1)
          else if env.r_hash = "" ∨ env.payment_addr = "" then
            ("ERROR", trace1)
          else
            (env.send_status,
              trace1 ++ [RebCall.sendToRoute (amount_sats * 1000)])

/-- Outcome of evaluating a piece of Python code: a value, or an uncaught
exception carrying its message. -/
inductive PyOutcome (α : Type)
  | ok (value : α)
  | raised (message : String)
  deriving Repr, DecidableEq

/-- The value fed back to the planner for one action: a success payload or
an `{"error": ...}` dict. -/
inductive ToolOutput
  | success (payload : String)
  | errorOut (message : String)
  deriving Repr, DecidableEq

/-- The methods the class LNDClient actually defines
(src/tools/lnd_tools.py), in source order. -/
def lndClientMethods : List String :=
  ["_setup_grpc_client", "get_lnd_info", "get_lnd_wallet_balance",
   "get_lnd_channel_balance", "set_fee_policy", "_internal_open_channel",
   "_internal_batch_open_channel", "propose_channel_opens",
   "execute_channel_opens", "list_lnd_peers", "connect_peer",
   "batch_connect_peers", "get_lnd_state", "list_lnd_channels",
   "forwarding_history"]

/-- The attribute names the tool_implementations dict literal in main.py
resolves eagerly on lnd_client, in the order the dict literal evaluates
them (lambda-valued entries defer their lookups and are not listed). -/
def toolMapLndAttrRefs : List String :=
  ["get_lnd_info", "get_lnd_wallet_balance", "get_lnd_channel_balance",
   "get_lnd_state", "set_fee_policy", "propose_channel_opens",
   "execute_channel_opens", "execute_channel_closes", "list_lnd_peers",
   "connect_peer", "batch_connect_peers", "list_lnd_channels"]

/-- The key set of the tool_implementations dict in main.py. -/
def toolImplementationNames : List String :=
  ["get_lnd_info", "get_lnd_wallet_balance", "get_lnd_channel_balance",
   "get_lnd_state", "set_fee_policy", "propose_channel_opens",
   "execute_channel_opens", "execute_channel_closes", "list_lnd_peers",
   "connect_peer", "batch_connect_peers", "get_top_and_filter_nodes",
   "get_fee_recommendations", "get_node_uri", "list_lnd_channels",
   "analyze_channel_liquidity_flow", "calculate_and_quote_loop_outs",
   "initiate_loop_out", "should_open_to_loop", "list_loop_out_swaps",
   "propose_fee_adjustments", "execute_rebalance",
   "find_rebalance_opportunities", "propose_channel_closes"]

/-- Evaluating the tool_implementations dict literal (main.py): each
lnd_client attribute named in a non-lambda value is resolved eagerly; the
first one the class does not define raises AttributeError (the loop_client
attribute it resolves, list_loop_out_swaps, does exist).  This evaluation
happens inside the `if execute:` block but before the per-action try. -/
def buildToolImplementations : PyOutcome (List String) :=
  match toolMapLndAttrRefs.find? (fun a => ¬ a ∈ lndClientMethods) with
  | some a =>
    .raised ("AttributeError: LNDClient object has no attribute " ++ a)
  | none => .ok toolImplementationNames

/-- The fixed sensitive-action set of main.py. -/
def sensitive_tools : List String :=
  ["execute_channel_opens", "initiate_loop_out", "execute_rebalance",
   "execute_channel_closes"]

/-- Result of dispatching one requested action: the output to feed back,
plus whether the mapped collaborator implementation was invoked. -/
structure ActionExec where
  output : ToolOutput
  collaboratorInvoked : Bool
  deriving Repr, DecidableEq

/-- The per-action body of the dispatch loop in main.main: a sensitive
action with a declined confirmation becomes a denial error without further
evaluation; otherwise the tool map is built (which can raise, escaping the
per-action handler), then a known action is executed inside try/except
(collaborator failures become `{"error": str(e)}`) and an unknown one
becomes an unknown-function error.  `confirm` models tui.get_confirmation
and `collab` models invoking the mapped implementation, which may itself
raise. -/
def runAction (confirm : String → Bool)
    (collab : String → PyOutcome ToolOutput) (name : String) :
    PyOutcome ActionExec :=
  if name ∈ sensitive_tools ∧ ¬ confirm name then
    .ok ⟨.errorOut ("User denied execution of tool: " ++ name), false⟩
  else
    match buildToolImplementations with
    | .raised m => .raised m
    | .ok names =>
      if name ∈ names then
        match collab name with
        | .raised m => .ok ⟨.errorOut m, true⟩
        | .ok out => .ok ⟨out, true⟩
      else
        .ok ⟨.errorOut ("Unknown function requested by model: " ++ name),
          false⟩

/-- The dispatch loop over one batch of requested actions
(function_calls_to_execute in main.main): actions run sequentially; an
exception escaping one action's dispatch propagates, abandoning the
remaining actions (it is only caught by the outer per-tick handler, which
logs and waits for the next tick). -/
def runBatch (confirm : String → Bool)
    (collab : String → PyOutcome ToolOutput) :
    List String → PyOutcome (List ActionExec)
  | [] => .ok []
  | name :: rest =>
    match runAction confirm collab name with
    | .raised m => .raised m
    | .ok r =>
      match runBatch confirm collab rest with
      | .raised m => .raised m
      | .ok rs => .ok (r :: rs)

/-- One node record of the globally cached scored-node data
(_global_all_scored_nodes), keyed by public key. -/
structure NodeData where
  score : Int
  stable_inbound_peers : List String
  stable_outbound_peers : List String
  deriving Repr, DecidableEq

/-- One discovered node of analyze_peer_network. -/
structure DiscoveredNode where
  pub_key : String
  score : Int
  depth : Int
  deriving Repr, DecidableEq

/-- The peer-selection loop of analyze_peer_network: walk the stable peers
of the current node, keep those not yet visited that exist in the cached
graph, and stop as soon as the kept list has reached peers_per_level (the
source checks the length after every iteration, appended or not). -/
def selectNewPeers (g : List (String × NodeData)) (peers_per_level : Int)
    (visited : List String) (acc : List String) :
    List String → List String
  | [] => acc
  | p :: ps =>
    let acc1 :=
      if p ∉ visited ∧ (g.lookup p).isSome then acc ++ [p] else acc
    if (acc1.length : Int) ≥ peers_per_level then acc1
    else selectNewPeers g peers_per_level visited acc1 ps

theorem lookup_none_not_key {g : List (String × NodeData)} {k : String}
    (h : g.lookup k = none) : k ∉ g.map Prod.fst := by
  induction g with
  | nil => simp
  | cons q t ih =>
    rw [List.lookup] at h
    by_cases hqk : k = q.1
    · simp [hqk] at h
    · have hbeq : (k == q.1) = false := beq_eq_false_iff_ne.mpr hqk
      rw [hbeq] at h
      simp only [List.map_cons, List.mem_cons, not_or]
      exact ⟨hqk, ih h⟩

theorem lookup_some_mem_keys {g : List (String × NodeData)} {k : String}
    {v : NodeData} (h : g.lookup k = some v) : k ∈ g.map Prod.fst := by
  induction g with
  | nil => simp [List.lookup] at h
  | cons q t ih =>
    rw [List.lookup] at h
    by_cases hqk : k = q.1
    · simp [hqk]
    · have hbeq : (k == q.1) = false := beq_eq_false_iff_ne.mpr hqk
      rw [hbeq] at h
      simp [ih h]

theorem length_filter_mono {l : List String} {p q : String → Bool}
    (h : ∀ x, p x = true → q x = true) :
    (l.filter p).length ≤ (l.filter q).length := by
  induction l with
  | nil => simp
  | cons b t ih =>
    rw [List.filter_cons, List.filter_cons]
    by_cases hpb : p b = true
    · rw [if_pos hpb, if_pos (h b hpb)]
      simpa using ih
    · rw [if_neg hpb]
      by_cases hqb : q b = true
      · rw [if_pos hqb]
        exact Nat.le_succ_of_le ih
      · rw [if_neg hqb]
        exact ih

theorem length_filter_strict {l : List String} {p q : String → Bool}
    (h : ∀ x, p x = true → q x = true) {a : String} (ha : a ∈ l)
    (hqa : q a = true) (hpa : p a = false) :
    (l.filter p).length < (l.filter q).length := by
  induction l with
  | nil => cases ha
  | cons b t ih =>
    rw [List.filter_cons, List.filter_cons]
    rcases List.mem_cons.mp ha with rfl | hat
    · rw [if_neg (by simp [hpa]), if_pos hqa]
      exact Nat.lt_succ_of_le (length_filter_mono h)
    · by_cases hpb : p b = true
      · rw [if_pos hpb, if_pos (h b hpb)]
        simpa using ih hat
      · rw [if_neg hpb]
        by_cases hqb : q b = true
        · rw [if_pos hqb]
          exact Nat.lt_succ_of_lt (ih hat)
        · rw [if_neg hqb]
          exact ih hat

/-- Number of graph keys the BFS has not yet visited; the primary
termination measure of the BFS loop. -/
def unvisitedCount (g : List (String × NodeData))
    (visited : List String) : Nat :=
  ((g.map Prod.fst).filter (fun k => k ∉ visited)).length

theorem unvisitedCount_not_key {g : List (String × NodeData)} {c : String}
    (hg : g.lookup c = none) (visited : List String) :
    unvisitedCount g (visited ++ [c]) = unvisitedCount g visited := by
  unfold unvisitedCount
  apply congrArg
  apply List.filter_congr
  intro x hx
  have hxc : x ≠ c := fun he => lookup_none_not_key hg (he ▸ hx)
  rw [decide_eq_decide]
  simp [List.mem_append, hxc]

theorem unvisitedCount_key_lt {g : List (String × NodeData)} {c : String}
    {nd : NodeData} (hg : g.lookup c = some nd) {visited : List String}
    (hv : c ∉ visited) :
    unvisitedCount g (visited ++ [c]) < unvisitedCount g visited := by
  unfold unvisitedCount
  apply length_filter_strict (a := c)
  · intro x hx
    simp only [decide_eq_true_eq] at hx ⊢
    intro hxv
    exact hx (List.mem_append_left _ hxv)
  · exact lookup_some_mem_keys hg
  · simp [hv]
  · simp [List.mem_append]

/-- The BFS while-loop of analyze_peer_network (network_analysis_tools.py):
pop the head of the queue; skip it when already visited; otherwise mark it
visited, and when the cached graph knows it, record it as discovered and,
below max_depth, enqueue up to peers_per_level of its unvisited stable
peers one level deeper.  Terminates for every graph, including cyclic ones:
each non-skip step removes a graph key from the unvisited pool and every
skip step shortens the queue. -/
def bfsLoop (g : List (String × NodeData)) (max_depth peers_per_level : Int)
    (visited : List String) (queue : List (String × Int))
    (discovered : List DiscoveredNode) :
    List DiscoveredNode × List String :=
  match queue with
  | [] => (discovered, visited)
  | (current_pubkey, current_depth) :: rest =>
    if hv : current_pubkey ∈ visited then
      bfsLoop g max_depth peers_per_level visited rest discovered
    else
      match hg : g.lookup current_pubkey with
      | none =>
        bfsLoop g max_depth peers_per_level (visited ++ [current_pubkey])
          rest discovered
      | some nd =>
        let visited1 := visited ++ [current_pubkey]
        let discovered1 := discovered ++
          [⟨current_pubkey, nd.score, current_depth⟩]
        let new_peers :=
          if current_depth < max_depth then
            selectNewPeers g peers_per_level visited1 []
              ((nd.stable_inbound_peers ++ nd.stable_outbound_peers).dedup)
          else []
        bfsLoop g max_depth peers_per_level visited1
          (rest ++ new_peers.map (fun p => (p, current_depth + 1)))
          discovered1
termination_by (unvisitedCount g visited, queue.length)
decreasing_by
  · simp only [List.length_cons]
    exact Prod.Lex.right _ (Nat.lt_succ_self _)
  · rw [unvisitedCount_not_key hg]
    simp only [List.length_cons]
    exact Prod.Lex.right _ (Nat.lt_succ_self _)
  · exact Prod.Lex.left _ _ (unvisitedCount_key_lt hg hv)

/-- Stable descending insertion by score, the embedding of
`sorted(discovered_nodes.values(), key=lambda x: x.get("score", 0),
reverse=True)` (Python sorted is stable). -/
def insertByScoreDesc (x : DiscoveredNode) :
    List DiscoveredNode → List DiscoveredNode
  | [] => [x]
  | y :: ys => if x.score > y.score then x :: y :: ys
               else y :: insertByScoreDesc x ys

/-- Stable descending sort by score. -/
def sortByScoreDesc : List DiscoveredNode → List DiscoveredNode
  | [] => []
  | x :: xs => insertByScoreDesc x (sortByScoreDesc xs)

/-- analyze_peer_network (network_analysis_tools.py): error (none) when the
global scored-node cache is empty, otherwise run the BFS from the start key
with empty visited set, singleton queue at depth 0 and no discovered nodes,
and return the discovered nodes sorted by score descending together with
the visited set. -/
def analyze_peer_network (g : List (String × NodeData))
    (start_pubkey : String) (max_depth peers_per_level : Int) :
    Option (List DiscoveredNode × List String) :=
  if g = [] then none
  else
    let r := bfsLoop g max_depth peers_per_level [] [(start_pubkey, 0)] []
    some (sortByScoreDesc r.1, r.2)

/-- A two-node cyclic graph (A and B list each other as stable peers), the
cycle case named by the spec. -/
def cycleGraph : List (String × NodeData) :=
  [("A", ⟨5, ["B"], []⟩), ("B", ⟨1, ["A"], []⟩)]

/-- C5: for every channel with aggregated 7-day inbound flow I and outbound
flow O, the computed trend is outbound iff O > 1.1 I, inbound iff
I > 1.1 O, balanced iff neither holds and some flow occurred, stagnant iff
both flows are zero (embedded exactly as 10 O > 11 I etc.); the four cases
are exhaustive and mutually exclusive, and the classification does not
depend on the order in which the two threshold comparisons are checked. -/
theorem liquidity_trend_characterization (i o : Nat) :
    (liquidityTrend i o = "outbound" ↔ 10 * o > 11 * i) ∧
    (liquidityTrend i o = "inbound" ↔ 10 * i > 11 * o) ∧
    (liquidityTrend i o = "balanced" ↔
      ¬ (10 * o > 11 * i) ∧ ¬ (10 * i > 11 * o) ∧ (0 < i ∨ 0 < o)) ∧
    (liquidityTrend i o = "stagnant" ↔ i = 0 ∧ o = 0) ∧
    liquidityTrend i o = liquidityTrendOutboundFirst i o := by
  unfold liquidityTrend liquidityTrendOutboundFirst
  split_ifs <;> simp_all <;> omega

/-- C8: a requested action whose name is in the fixed sensitive set and
whose external confirmation is declined produces the denial-shaped error
result and never invokes the mapped collaborator implementation. -/
theorem sensitive_denied_never_invoked (confirm : String → Bool)
    (collab : String → PyOutcome ToolOutput) (name : String)
    (hs : name ∈ sensitive_tools) (hd : confirm name = false) :
    runAction confirm collab name =
      .ok ⟨.errorOut ("User denied execution of tool: " ++ name), false⟩ := by
  unfold runAction
  rw [if_pos ⟨hs, by simp [hd]⟩]

/-- C8 witness: declining the confirmation for execute_rebalance yields the
denial error and no collaborator invocation. -/
theorem sensitive_denied_never_invoked_witness :
    "execute_rebalance" ∈ sensitive_tools ∧
    (fun _ : String => false) "execute_rebalance" = false ∧
    runAction (fun _ => false) (fun _ => .ok (.success "paid"))
        "execute_rebalance" =
      .ok ⟨.errorOut "User denied execution of tool: execute_rebalance",
        false⟩ :=
  ⟨by decide, rfl,
    sensitive_denied_never_invoked (fun _ => false)
      (fun _ => .ok (.success "paid")) "execute_rebalance" (by decide) rfl⟩

/-- C1: evaluating the code at a failing input.  main.py's
tool_implementations dict literal resolves lnd_client.execute_channel_closes,
an attribute the class LNDClient never defines; the resulting AttributeError
is raised outside the per-action try/except, so a batch of two ordinary
approved actions aborts with an uncaught exception instead of producing a
per-action error result and executing the second action, for every
collaborator behaviour. -/
theorem dispatch_missing_method_aborts_batch :
    "execute_channel_closes" ∈ toolMapLndAttrRefs ∧
    "execute_channel_closes" ∉ lndClientMethods ∧
    ∀ collab : String → PyOutcome ToolOutput,
      runBatch (fun _ => true) collab ["get_lnd_info", "list_lnd_peers"] =
        .raised
          "AttributeError: LNDClient object has no attribute execute_channel_closes" :=
  ⟨by decide, by decide, fun _ => rfl⟩

/-- C3 counterexample: with a pending (state INITIATED) swap whose outgoing
channel set contains the requested channel, initiate_loop_out returns a
result with status ERROR, refuting the claim that the rejection is a no-op
and not an error (the swap request is indeed not sent). -/
theorem initiate_loop_out_pending_is_error :
    initiate_loop_out ⟨"OK", [⟨"INITIATED", ["123"]⟩]⟩ "OK"
      [⟨"123", "pk", 10000000, 9000000, 1000000⟩] "123" =
      ⟨"ERROR",
        some "Channel 123 is already part of a pending Loop Out swap.",
        none⟩ := by decide

/-- C3 amended: whenever the listed swaps contain one whose state is neither
SUCCESS nor FAILED and whose outgoing channel set references the requested
channel, initiate_loop_out rejects with an ERROR-status result carrying the
already-pending message, and no swap request is sent to the swap
collaborator. -/
theorem initiate_loop_out_pending_guard (swapsResp : SwapsResp)
    (channelsStatus : String) (channels : List Channel) (cid : String)
    (hok : swapsResp.status = "OK")
    (hpending : ∃ s ∈ swapsResp.swaps,
      s.state ∉ ["SUCCESS", "FAILED"] ∧ cid ∈ s.outgoing_chan_set) :
    initiate_loop_out swapsResp channelsStatus channels cid =
      ⟨"ERROR",
        some ("Channel " ++ cid ++
          " is already part of a pending Loop Out swap."), none⟩ := by
  unfold initiate_loop_out
  rw [if_pos]
  refine ⟨hok, ?_⟩
  rcases hpending with ⟨s, hs, h1, h2⟩
  exact List.any_eq_true.mpr ⟨s, hs, by simp [h1, h2]⟩

/-- C3 witness: the guard theorem applied at a concrete pending swap. -/
theorem initiate_loop_out_pending_guard_witness :
    (SwapsResp.status ⟨"OK", [⟨"INITIATED", ["456"]⟩]⟩ = "OK") ∧
    (∃ s ∈ SwapsResp.swaps ⟨"OK", [⟨"INITIATED", ["456"]⟩]⟩,
      s.state ∉ ["SUCCESS", "FAILED"] ∧ "456" ∈ s.outgoing_chan_set) ∧
    initiate_loop_out ⟨"OK", [⟨"INITIATED", ["456"]⟩]⟩ "OK" [] "456" =
      ⟨"ERROR",
        some "Channel 456 is already part of a pending Loop Out swap.",
        none⟩ :=
  ⟨rfl, ⟨⟨"INITIATED", ["456"]⟩, by decide, by decide, by decide⟩,
    initiate_loop_out_pending_guard ⟨"OK", [⟨"INITIATED", ["456"]⟩]⟩ "OK" []
      "456" rfl ⟨⟨"INITIATED", ["456"]⟩, by decide, by decide, by decide⟩⟩

theorem not_low_and_high (ch : Channel) :
    ¬ (isLowOutbound ch = true ∧ isHighOutbound ch = true) := by
  unfold isLowOutbound isHighOutbound
  by_cases h : (0 : Int) < ch.local_balance + ch.remote_balance
  · simp only [if_pos h, decide_eq_true_eq]
    omega
  · simp [if_neg h]

/-- C6 counterexample: on an input list containing two channel records with
the same channel id (one liquidity-deficient, one liquidity-surplus),
find_rebalance_opportunities returns a pair whose outgoing and incoming
sides are the same channel id, refuting the claim for all inputs. -/
theorem find_rebalance_same_id_pair :
    find_rebalance_opportunities
      [⟨"x", "pkA", 100, 0, 100⟩, ⟨"x", "pkB", 100, 100, 0⟩] =
      [⟨"x", "x"⟩] := by decide

/-- C6 amended: for every input channel list whose channel ids are pairwise
distinct, no returned pair has the same channel id on both sides (including
channels with zero combined balance, which fall into the low-outbound
group), and no returned pair has a channel whose counterparty is the
excluded LOOP node as its outgoing side. -/
theorem find_rebalance_opportunities_sound (channels : List Channel)
    (hnodup : (channels.map Channel.chan_id).Nodup) :
    ∀ opp ∈ find_rebalance_opportunities channels,
      opp.outgoing_channel_id ≠ opp.incoming_channel_id ∧
      ∀ ch ∈ channels, ch.chan_id = opp.outgoing_channel_id →
        ch.remote_pubkey ≠ LOOP_NODE_PUBKEY := by
  intro opp hopp
  unfold find_rebalance_opportunities at hopp
  rcases List.mem_flatMap.mp hopp with ⟨low_chan, hlow, hmap⟩
  rcases List.mem_map.mp hmap with ⟨high_chan, hhigh, heq⟩
  rcases List.mem_filter.mp hlow with ⟨hlow_mem, hlow_pred⟩
  rcases List.mem_filter.mp hhigh with ⟨hhigh_mem, hhigh_pred⟩
  have hhigh_pred' : isHighOutbound high_chan = true ∧
      high_chan.remote_pubkey ≠ LOOP_NODE_PUBKEY := by
    simpa [decide_eq_true_eq] using hhigh_pred
  subst heq
  constructor
  · intro hids
    have : high_chan = low_chan :=
      List.inj_on_of_nodup_map hnodup hhigh_mem hlow_mem hids
    exact not_low_and_high low_chan ⟨hlow_pred, this ▸ hhigh_pred'.1⟩
  · intro ch hch hid
    have : ch = high_chan :=
      List.inj_on_of_nodup_map hnodup hch hhigh_mem hid
    exact this ▸ hhigh_pred'.2

/-- C6 witness: the amended theorem applied to a concrete distinct-id list
that yields one opportunity. -/
theorem find_rebalance_opportunities_sound_witness :
    (([⟨"L1", "pkA", 100, 0, 100⟩, ⟨"H1", "pkB", 100, 100, 0⟩] :
        List Channel).map Channel.chan_id).Nodup ∧
    (⟨"L1", "H1"⟩ : RebalanceOpportunity) ∈
      find_rebalance_opportunities
        [⟨"L1", "pkA", 100, 0, 100⟩, ⟨"H1", "pkB", 100, 100, 0⟩] ∧
    ("H1" : String) ≠ "L1" :=
  ⟨by decide, by decide,
    (find_rebalance_opportunities_sound
      [⟨"L1", "pkA", 100, 0, 100⟩, ⟨"H1", "pkB", 100, 100, 0⟩] (by decide)
      ⟨"L1", "H1"⟩ (by decide)).1⟩

/-- C2: for every requested channel id resolving to a channel with
non-negative local balance and positive capacity, the reported loop-out
amount is min(local_balance - capacity / 2, 10000000) when that value is
positive, with a quote requested at exactly that amount; when the raw
amount is non-positive the entry reports amount 0 with status OK and no
quote requested; and the per-channel entry is what the batch result
contains for that id. -/
theorem calculate_and_quote_loop_outs_amounts (channels : List Channel)
    (quoteFn : Int → String) (channel_ids : List String) (cid : String)
    (ch : Channel) (hfind : lookupChannelLast channels cid = some ch)
    (hlb : 0 ≤ ch.local_balance) (hcap : 0 < ch.capacity) :
    (0 < ch.local_balance - ch.capacity / 2 →
      quoteForChannel channels quoteFn cid =
        ⟨cid, "OK", some (min (ch.local_balance - ch.capacity / 2) 10000000),
          some (quoteFn (min (ch.local_balance - ch.capacity / 2) 10000000)),
          none⟩) ∧
    (ch.local_balance - ch.capacity / 2 ≤ 0 →
      quoteForChannel channels quoteFn cid =
        ⟨cid, "OK", some 0, none,
          some "Channel is already balanced or has inbound liquidity."⟩) ∧
    (cid ∈ channel_ids →
      quoteForChannel channels quoteFn cid ∈
        calculate_and_quote_loop_outs channels quoteFn channel_ids) := by
  refine ⟨?_, ?_, ?_⟩
  · intro hpos
    simp only [quoteForChannel, hfind]
    rw [if_neg (by omega), if_neg (by omega)]
  · intro hnonpos
    simp only [quoteForChannel, hfind]
    rw [if_neg (by omega), if_pos (by omega)]
  · intro hmem
    exact List.mem_map_of_mem _ hmem

/-- C2 witness: the three concrete instances named by the spec: local
8000000 with capacity 10000000 yields 3000000; local 20000000 with capacity
20000000 yields the ceiling 10000000; local 4000000 with capacity 10000000
yields 0 with no quote. -/
theorem calculate_and_quote_loop_outs_amounts_witness :
    lookupChannelLast
        [⟨"1001", "pkA", 10000000, 8000000, 2000000⟩,
         ⟨"1002", "pkB", 20000000, 20000000, 0⟩,
         ⟨"1003", "pkC", 10000000, 4000000, 6000000⟩] "1001" =
      some ⟨"1001", "pkA", 10000000, 8000000, 2000000⟩ ∧
    quoteForChannel
        [⟨"1001", "pkA", 10000000, 8000000, 2000000⟩,
         ⟨"1002", "pkB", 20000000, 20000000, 0⟩,
         ⟨"1003", "pkC", 10000000, 4000000, 6000000⟩] (fun _ => "q") "1001" =
      ⟨"1001", "OK", some 3000000, some "q", none⟩ ∧
    quoteForChannel
        [⟨"1001", "pkA", 10000000, 8000000, 2000000⟩,
         ⟨"1002", "pkB", 20000000, 20000000, 0⟩,
         ⟨"1003", "pkC", 10000000, 4000000, 6000000⟩] (fun _ => "q") "1002" =
      ⟨"1002", "OK", some 10000000, some "q", none⟩ ∧
    quoteForChannel
        [⟨"1001", "pkA", 10000000, 8000000, 2000000⟩,
         ⟨"1002", "pkB", 20000000, 20000000, 0⟩,
         ⟨"1003", "pkC", 10000000, 4000000, 6000000⟩] (fun _ => "q") "1003" =
      ⟨"1003", "OK", some 0, none,
        some "Channel is already balanced or has inbound liquidity."⟩ := by
  refine ⟨by decide, ?_, ?_, ?_⟩
  · have h := (calculate_and_quote_loop_outs_amounts
      [⟨"1001", "pkA", 10000000, 8000000, 2000000⟩,
       ⟨"1002", "pkB", 20000000, 20000000, 0⟩,
       ⟨"1003", "pkC", 10000000, 4000000, 6000000⟩] (fun _ => "q") []
      "1001" ⟨"1001", "pkA", 10000000, 8000000, 2000000⟩ (by decide)
      (by decide) (by decide)).1 (by decide)
    simpa using h
  · have h := (calculate_and_quote_loop_outs_amounts
      [⟨"1001", "pkA", 10000000, 8000000, 2000000⟩,
       ⟨"1002", "pkB", 20000000, 20000000, 0⟩,
       ⟨"1003", "pkC", 10000000, 4000000, 6000000⟩] (fun _ => "q") []
      "1002" ⟨"1002", "pkB", 20000000, 20000000, 0⟩ (by decide)
      (by decide) (by decide)).1 (by decide)
    simpa using h
  · exact (calculate_and_quote_loop_outs_amounts
      [⟨"1001", "pkA", 10000000, 8000000, 2000000⟩,
       ⟨"1002", "pkB", 20000000, 20000000, 0⟩,
       ⟨"1003", "pkC", 10000000, 4000000, 6000000⟩] (fun _ => "q") []
      "1003" ⟨"1003", "pkC", 10000000, 4000000, 6000000⟩ (by decide)
      (by decide) (by decide)).2.1 (by decide)

set_option maxHeartbeats 1600000 in
/-- C10: every collaborator call execute_rebalance makes (the route query,
the invoice creation and the payment) uses exactly min(requested amount,
20000) sats, whatever the collaborator responses and the requested amount,
and the fee limit of the route query is 4 msat per sat of the capped
amount, i.e. 4000 ppm of the capped amount in msat. -/
theorem execute_rebalance_caps_amount (env : RebalanceEnv)
    (amount_sats : Int) :
    (∀ m f, RebCall.queryRoutes m f ∈ (execute_rebalance env amount_sats).2 →
      m = min amount_sats 20000 * 1000 ∧ f = 4 * min amount_sats 20000) ∧
    (∀ v, RebCall.addInvoice v ∈ (execute_rebalance env amount_sats).2 →
      v = min amount_sats 20000 * 1000) ∧
    (∀ t, RebCall.sendToRoute t ∈ (execute_rebalance env amount_sats).2 →
      t = min amount_sats 20000 * 1000) := by
  have hmin : (if amount_sats > 20000 then (20000 : Int) else amount_sats) =
      min amount_sats 20000 := by omega
  have hfee : Int.tdiv (min amount_sats 20000 * 1000 * 4000) 1000000 =
      4 * min amount_sats 20000 := by
    have h : min amount_sats 20000 * 1000 * 4000 =
        4 * min amount_sats 20000 * 1000000 := by ring
    rw [h]
    exact Int.mul_tdiv_cancel (4 * min amount_sats 20000) (by norm_num)
  unfold execute_rebalance
  rw [hmin]
  dsimp only
  rw [hfee]
  refine ⟨fun m f hmf => ?_, fun v hv1 => ?_, fun t ht1 => ?_⟩
  · repeat' split at hmf
    all_goals
      simp only [List.mem_append, List.mem_cons, List.not_mem_nil, or_false,
        false_or, RebCall.queryRoutes.injEq, reduceCtorEq] at hmf
    all_goals exact hmf
  · repeat' split at hv1
    all_goals
      simp only [List.mem_append, List.mem_cons, List.not_mem_nil, or_false,
        false_or, RebCall.addInvoice.injEq, reduceCtorEq] at hv1
    all_goals exact hv1
  · repeat' split at ht1
    all_goals
      simp only [List.mem_append, List.mem_cons, List.not_mem_nil, or_false,
        false_or, RebCall.sendToRoute.injEq, reduceCtorEq] at ht1
    all_goals exact ht1

/-- C10 witness: a 250000-sat rebalance request with all collaborators
succeeding issues its route query at 20000000 msat with fee limit 80000
msat, i.e. at the 20000-sat cap. -/
theorem execute_rebalance_caps_amount_witness :
    RebCall.queryRoutes 20000000 80000 ∈
      (execute_rebalance
        ⟨"OK", "me", "OK", "me", "peer1", "OK", "me", "peer2", "OK", true,
          "OK", "h", "a", "OK"⟩ 250000).2 ∧
    (20000000 : Int) = 1000 * min 250000 20000 ∧
    (80000 : Int) = 4 * min 250000 20000 :=
  ⟨by decide,
    (execute_rebalance_caps_amount
      ⟨"OK", "me", "OK", "me", "peer1", "OK", "me", "peer2", "OK", true,
        "OK", "h", "a", "OK"⟩ 250000).1 20000000 80000 (by decide)⟩

theorem flowStep_id {cid : String} {f : Flow} {e : FwdEvent}
    (h1 : ¬ (e.chan_id_in ≠ "" ∧ e.chan_id_in = cid))
    (h2 : ¬ (e.chan_id_out ≠ "" ∧ e.chan_id_out = cid)) :
    flowStep cid f e = f := by
  unfold flowStep
  rw [if_neg h1, if_neg h2]

theorem flowFor_eq_default {events : List FwdEvent} {cid : String}
    (h : ∀ e ∈ events, ¬ (e.chan_id_in ≠ "" ∧ e.chan_id_in = cid) ∧
      ¬ (e.chan_id_out ≠ "" ∧ e.chan_id_out = cid)) :
    flowFor events cid = ⟨0, 0, none⟩ := by
  unfold flowFor
  induction events with
  | nil => rfl
  | cons e t ih =>
    rw [List.foldl_cons,
      flowStep_id (h e (List.mem_cons_self e t)).1
        (h e (List.mem_cons_self e t)).2]
    exact ih fun x hx => h x (List.mem_cons_of_mem e hx)

/-- C4 counterexample: a channel whose remote pubkey is the LOOP node is
dropped by analyze_channel_liquidity_flow, so a one-channel input yields
zero classification records, refuting the claim that every channel in the
input list gets exactly one record. -/
theorem analyze_flow_drops_loop_channel :
    analyze_channel_liquidity_flow
        [⟨"777", LOOP_NODE_PUBKEY, 100, 50, 50⟩] [] [] = [] ∧
    ([⟨"777", LOOP_NODE_PUBKEY, 100, 50, 50⟩] : List Channel).length = 1 := by
  decide

/-- C4 amended: analyze_channel_liquidity_flow emits exactly one
classification record, in input order, per channel whose remote pubkey is
not the LOOP node (LOOP-node channels are dropped by this component), and
every emitted channel with no forwarding event attributed to it gets zero
inbound flow, zero outbound flow and trend stagnant. -/
theorem analyze_flow_one_record_per_channel (channels : List Channel)
    (events : List FwdEvent) (pending_swaps : List Swap) :
    ((analyze_channel_liquidity_flow channels events pending_swaps).map
        ChannelAnalysis.channel_id =
      (channels.filter
          (fun ch => ch.remote_pubkey ≠ LOOP_NODE_PUBKEY)).map
        Channel.chan_id) ∧
    ∀ ch ∈ channels, ch.remote_pubkey ≠ LOOP_NODE_PUBKEY →
      (∀ e ∈ events, ¬ (e.chan_id_in ≠ "" ∧ e.chan_id_in = ch.chan_id) ∧
        ¬ (e.chan_id_out ≠ "" ∧ e.chan_id_out = ch.chan_id)) →
      analysisRecord events pending_swaps ch ∈
          analyze_channel_liquidity_flow channels events pending_swaps ∧
        (analysisRecord events pending_swaps ch).channel_id = ch.chan_id ∧
        (analysisRecord events pending_swaps ch).inbound_msat_7d = 0 ∧
        (analysisRecord events pending_swaps ch).outbound_msat_7d = 0 ∧
        (analysisRecord events pending_swaps ch).liquidity_trend =
          "stagnant" := by
  constructor
  · unfold analyze_channel_liquidity_flow
    rw [List.map_map]
    exact List.map_congr_left fun a _ => rfl
  · intro ch hch hpk hnoev
    have hflow : flowFor events ch.chan_id = ⟨0, 0, none⟩ :=
      flowFor_eq_default hnoev
    have hrec : analysisRecord events pending_swaps ch ∈
        analyze_channel_liquidity_flow channels events pending_swaps := by
      unfold analyze_channel_liquidity_flow
      exact List.mem_map_of_mem _
        (List.mem_filter.mpr ⟨hch, by simpa using hpk⟩)
    refine ⟨hrec, rfl, ?_, ?_, ?_⟩ <;>
      simp [analysisRecord, hflow, liquidityTrend]

/-- C4 witness: on a two-channel list (one LOOP channel, one ordinary) with
no forwarding events, the ordinary channel gets its zero-flow stagnant
record. -/
theorem analyze_flow_one_record_per_channel_witness :
    analysisRecord [] [] ⟨"222", "pkB", 100, 50, 50⟩ ∈
      analyze_channel_liquidity_flow
        [⟨"111", LOOP_NODE_PUBKEY, 100, 50, 50⟩,
         ⟨"222", "pkB", 100, 50, 50⟩] [] [] ∧
    (analysisRecord [] [] ⟨"222", "pkB", 100, 50, 50⟩).inbound_msat_7d = 0 ∧
    (analysisRecord [] [] ⟨"222", "pkB", 100, 50, 50⟩).liquidity_trend =
      "stagnant" := by
  have h := (analyze_flow_one_record_per_channel
      [⟨"111", LOOP_NODE_PUBKEY, 100, 50, 50⟩, ⟨"222", "pkB", 100, 50, 50⟩]
      [] []).2 ⟨"222", "pkB", 100, 50, 50⟩ (by decide) (by decide)
      (by intro e he; cases he)
  exact ⟨h.1, h.2.2.1, h.2.2.2.2⟩

theorem adjustPeerCount_none_iff (avail : Nat) :
    ∀ n, 1 ≤ n →
      (adjustPeerCount avail n (avail / n) = none ↔ avail < 5000000) := by
  intro n
  induction n with
  | zero => omega
  | succ m ih =>
    intro _
    by_cases hm : m = 0
    · subst hm
      simp only [adjustPeerCount, Nat.div_one]
      by_cases h5 : avail < 5000000
      · simp [h5]
      · simp [h5]
    · simp only [adjustPeerCount]
      by_cases h5 : avail / (m + 1) < 5000000
      · rw [if_pos h5, if_neg hm]
        rw [ih (by omega)]
      · rw [if_neg h5]
        have : ¬ avail < 5000000 := by
          have := Nat.div_le_self avail (m + 1)
          omega
        simp [this]

theorem adjustPeerCount_some_spec (avail : Nat) :
    ∀ n k per, 1 ≤ n →
      adjustPeerCount avail n (avail / n) = some (k, per) →
      1 ≤ k ∧ k ≤ n ∧ per = avail / k ∧ 5000000 ≤ per ∧
        (k = n ∨ avail / (k + 1) < 5000000) := by
  intro n
  induction n with
  | zero => omega
  | succ m ih =>
    intro k per _ hsome
    by_cases hm : m = 0
    · subst hm
      simp only [adjustPeerCount] at hsome
      by_cases h5 : avail < 5000000
      · rw [if_pos (by simpa using h5)] at hsome
        simp at hsome
      · rw [if_neg (by simpa using h5)] at hsome
        cases hsome
        exact ⟨by omega, by omega, rfl, by omega, Or.inl rfl⟩
    · simp only [adjustPeerCount] at hsome
      by_cases h5 : avail / (m + 1) < 5000000
      · rw [if_pos h5, if_neg hm] at hsome
        obtain ⟨hk1, hkm, hper, h5per, hlast⟩ :=
          ih k per (by omega) hsome
        refine ⟨hk1, by omega, hper, h5per, ?_⟩
        rcases hlast with rfl | hlt
        · right
          exact h5
        · right
          exact hlt
      · rw [if_neg h5] at hsome
        cases hsome
        exact ⟨by omega, le_refl _, rfl, by omega, Or.inl rfl⟩

/-- C7 counterexample: a candidate list consisting of exactly the LOOP node
bypasses even division entirely: with confirmed balance 11000000 (available
funds 10000000, well above the 5000000 minimum) the proposal is the fixed
30000000 single open, not a single open at the per-candidate share
10000000, refuting the claim for every non-empty ordered candidate list. -/
theorem propose_opens_loop_bypass :
    propose_channel_opens [⟨LOOP_NODE_PUBKEY⟩] 1 "OK" 11000000 =
      .proposed [.single LOOP_NODE_PUBKEY 30000000 1] ∧
    (30000000 : Nat) ≠ (11000000 - 1000000) / 1 := by decide

/-- C7 amended: for every non-empty ordered candidate list other than the
singleton LOOP-node list (which is proposed at the fixed 30000000), with the
wallet balance fetched OK and above the 1000000 reserve, propose_channel_opens
divides the available funds evenly and drops lowest-ranked candidates (the
tail of the list) while the share is below 5000000: if even one candidate's
share is below the minimum it reports the non-error budget-too-small
outcome, otherwise it proposes one single open (one survivor) or one batch
open (two or more survivors) at the final share, the survivors being a
prefix of the candidate list whose share is at least 5000000, and either no
candidate was dropped or one more candidate would put the share below the
minimum. -/
theorem propose_channel_opens_spec (peers : List PeerCandidate) (spv : Nat)
    (confirmed_balance : Nat) (hne : peers ≠ [])
    (hnl : ¬ (peers.length = 1 ∧
      peers.head?.map PeerCandidate.pub_key = some LOOP_NODE_PUBKEY))
    (hcb : 1000000 < confirmed_balance) :
    (confirmed_balance - 1000000 < 5000000 →
      propose_channel_opens peers spv "OK" confirmed_balance =
        .okMsg
          "Budget too small to open any channels of the minimum size (5M sats).") ∧
    (5000000 ≤ confirmed_balance - 1000000 →
      ∃ k, 1 ≤ k ∧ k ≤ peers.length ∧
        5000000 ≤ (confirmed_balance - 1000000) / k ∧
        (k = peers.length ∨
          (confirmed_balance - 1000000) / (k + 1) < 5000000) ∧
        propose_channel_opens peers spv "OK" confirmed_balance =
          (match peers.take k with
           | [] => .okMsg "No suitable peers left after budget filtering."
           | [peer] => .proposed [.single peer.pub_key
              ((confirmed_balance - 1000000) / k) spv]
           | final_peers => .proposed [.batch
              (final_peers.map
                (fun p => (p.pub_key, (confirmed_balance - 1000000) / k)))
              spv])) := by
  have hlen : 1 ≤ peers.length := List.length_pos.mpr hne
  have hred : propose_channel_opens peers spv "OK" confirmed_balance =
      (match adjustPeerCount (confirmed_balance - 1000000) peers.length
          ((confirmed_balance - 1000000) / peers.length) with
       | none =>
         .okMsg
           "Budget too small to open any channels of the minimum size (5M sats)."
       | some (num_peers, per_channel_amount) =>
         (match peers.take num_peers with
          | [] => .okMsg "No suitable peers left after budget filtering."
          | [peer] =>
            .proposed [.single peer.pub_key per_channel_amount spv]
          | final_peers => .proposed [.batch
              (final_peers.map (fun p => (p.pub_key, per_channel_amount)))
              spv])) := by
    unfold propose_channel_opens
    rw [if_neg hne, if_neg hnl, if_neg (by simp), if_neg (by omega),
      if_neg (by omega)]
  constructor
  · intro hsmall
    rw [hred,
      (adjustPeerCount_none_iff (confirmed_balance - 1000000) peers.length
        hlen).mpr hsmall]
  · intro hbig
    cases hadj : adjustPeerCount (confirmed_balance - 1000000) peers.length
        ((confirmed_balance - 1000000) / peers.length) with
    | none =>
      have := (adjustPeerCount_none_iff (confirmed_balance - 1000000)
        peers.length hlen).mp hadj
      omega
    | some kp =>
      obtain ⟨k, per⟩ := kp
      obtain ⟨hk1, hkn, hper, h5per, hlast⟩ :=
        adjustPeerCount_some_spec (confirmed_balance - 1000000) peers.length
          k per hlen hadj
      subst hper
      exact ⟨k, hk1, hkn, h5per, hlast, by rw [hred, hadj]⟩

/-- C7 witness: available funds 20000000 (confirmed balance 21000000) and 5
candidates: the loop stops at 4 candidates with a share of exactly 5000000,
proposed as one batch open of the first four candidates. -/
theorem propose_channel_opens_spec_witness :
    (([⟨"p1"⟩, ⟨"p2"⟩, ⟨"p3"⟩, ⟨"p4"⟩, ⟨"p5"⟩] : List PeerCandidate) ≠ []) ∧
    ¬ (([⟨"p1"⟩, ⟨"p2"⟩, ⟨"p3"⟩, ⟨"p4"⟩, ⟨"p5"⟩] :
        List PeerCandidate).length = 1 ∧
      ([⟨"p1"⟩, ⟨"p2"⟩, ⟨"p3"⟩, ⟨"p4"⟩,
        ⟨"p5"⟩] : List PeerCandidate).head?.map PeerCandidate.pub_key =
        some LOOP_NODE_PUBKEY) ∧
    1000000 < 21000000 ∧
    propose_channel_opens [⟨"p1"⟩, ⟨"p2"⟩, ⟨"p3"⟩, ⟨"p4"⟩, ⟨"p5"⟩] 2 "OK"
        21000000 =
      .proposed [.batch
        [("p1", 5000000), ("p2", 5000000), ("p3", 5000000), ("p4", 5000000)]
        2] ∧
    (5000000 ≤ 21000000 - 1000000 →
      ∃ k, 1 ≤ k ∧
        k ≤ ([⟨"p1"⟩, ⟨"p2"⟩, ⟨"p3"⟩, ⟨"p4"⟩, ⟨"p5"⟩] :
          List PeerCandidate).length ∧
        5000000 ≤ (21000000 - 1000000) / k ∧
        (k = ([⟨"p1"⟩, ⟨"p2"⟩, ⟨"p3"⟩, ⟨"p4"⟩, ⟨"p5"⟩] :
            List PeerCandidate).length ∨
          (21000000 - 1000000) / (k + 1) < 5000000) ∧
        propose_channel_opens [⟨"p1"⟩, ⟨"p2"⟩, ⟨"p3"⟩, ⟨"p4"⟩, ⟨"p5"⟩] 2 "OK"
            21000000 =
          (match ([⟨"p1"⟩, ⟨"p2"⟩, ⟨"p3"⟩, ⟨"p4"⟩, ⟨"p5"⟩] :
              List PeerCandidate).take k with
           | [] => .okMsg "No suitable peers left after budget filtering."
           | [peer] => .proposed [.single peer.pub_key
              ((21000000 - 1000000) / k) 2]
           | final_peers => .proposed [.batch
              (final_peers.map
                (fun p => (p.pub_key, (21000000 - 1000000) / k)))
              2])) :=
  ⟨by decide, by decide, by decide, by decide,
    (propose_channel_opens_spec [⟨"p1"⟩, ⟨"p2"⟩, ⟨"p3"⟩, ⟨"p4"⟩, ⟨"p5"⟩] 2
      21000000 (by decide) (by decide) (by decide)).2⟩

theorem insertByScoreDesc_perm (x : DiscoveredNode)
    (l : List DiscoveredNode) : (insertByScoreDesc x l).Perm (x :: l) := by
  induction l with
  | nil => exact List.Perm.refl _
  | cons y ys ih =>
    unfold insertByScoreDesc
    by_cases h : x.score > y.score
    · rw [if_pos h]
    · rw [if_neg h]
      exact (ih.cons y).trans (List.Perm.swap x y ys)

theorem sortByScoreDesc_perm (l : List DiscoveredNode) :
    (sortByScoreDesc l).Perm l := by
  induction l with
  | nil => exact List.Perm.refl _
  | cons x xs ih => exact (insertByScoreDesc_perm x _).trans (ih.cons x)

theorem nodup_append_singleton {l : List String} {a : String}
    (h : l.Nodup) (ha : a ∉ l) : (l ++ [a]).Nodup := by
  refine List.nodup_append.mpr ⟨h, List.nodup_singleton a, ?_⟩
  intro x hx hxa
  rw [List.mem_singleton] at hxa
  subst hxa
  exact ha hx

theorem bfsLoop_invariant (g : List (String × NodeData))
    (max_depth peers_per_level : Int) :
    ∀ (visited : List String) (queue : List (String × Int))
      (discovered : List DiscoveredNode),
      visited.Nodup →
      (discovered.map DiscoveredNode.pub_key).Nodup →
      (∀ x ∈ discovered.map DiscoveredNode.pub_key, x ∈ visited) →
      (bfsLoop g max_depth peers_per_level visited queue
          discovered).2.Nodup ∧
      ((bfsLoop g max_depth peers_per_level visited queue
          discovered).1.map DiscoveredNode.pub_key).Nodup := by
  intro visited queue discovered
  induction visited, queue, discovered using
      bfsLoop.induct g max_depth peers_per_level with
  | case1 visited discovered =>
    intro hv hd _
    simp only [bfsLoop]
    exact ⟨hv, hd⟩
  | case2 visited discovered c dep rest hmem ih =>
    intro hv hd hsub
    simp only [bfsLoop, dif_pos hmem]
    exact ih hv hd hsub
  | case3 visited discovered c dep rest hmem hlook ih =>
    intro hv hd hsub
    simp only [bfsLoop, dif_neg hmem]
    split
    · exact ih (nodup_append_singleton hv hmem) hd
        fun x hx => List.mem_append_left _ (hsub x hx)
    · rename_i nd2 heq
      rw [hlook] at heq
      cases heq
  | case4 visited discovered c dep rest hmem nd hlook visited1 discovered1
      new_peers ih =>
    intro hv hd hsub
    simp only [bfsLoop, dif_neg hmem]
    split
    · rename_i heq
      rw [hlook] at heq
      cases heq
    · rename_i nd2 heq
      rw [hlook] at heq
      injection heq with heq2
      subst heq2
      have hcd : c ∉ discovered.map DiscoveredNode.pub_key :=
        fun hc => hmem (hsub c hc)
      refine ih (nodup_append_singleton hv hmem) ?_ ?_
      · rw [List.map_append]
        exact nodup_append_singleton hd hcd
      · intro x hx
        rw [List.map_append] at hx
        rcases List.mem_append.mp hx with hx | hx
        · exact List.mem_append_left _ (hsub x hx)
        · simp only [List.map_cons, List.map_nil, List.mem_singleton] at hx
          subst hx
          exact List.mem_append_right _ (List.mem_singleton_self _)

/-- C9: the bounded BFS exploration of analyze_peer_network terminates on
every finite node graph, start key, depth bound and fan-out bound (the
embedded loop is a total function, proved terminating by the decrease of
the unvisited-key count or the queue length), and each node key is expanded
at most once: the reported node list never repeats a pub key and the
visited set never repeats a key; concretely, on the cyclic two-node graph
A-B the exploration terminates having visited each node exactly once. -/
theorem analyze_peer_network_visits_once :
    (∀ (g : List (String × NodeData)) (s : String) (d p : Int),
      (analyze_peer_network g s d p).elim True fun r =>
        (r.1.map DiscoveredNode.pub_key).Nodup ∧ r.2.Nodup) ∧
    analyze_peer_network cycleGraph "A" 3 3 =
      some ([⟨"A", 5, 0⟩, ⟨"B", 1, 1⟩], ["A", "B"]) := by
  constructor
  · intro g s d p
    unfold analyze_peer_network
    by_cases hg : g = []
    · simp [hg]
    · rw [if_neg hg]
      simp only [Option.elim]
      have h := bfsLoop_invariant g d p [] [(s, 0)] [] (by simp) (by simp)
        (by simp)
      exact ⟨(((sortByScoreDesc_perm _).map _).nodup_iff).mpr h.2, h.1⟩
  · simp [analyze_peer_network, cycleGraph, bfsLoop, selectNewPeers,
      sortByScoreDesc, insertByScoreDesc, List.lookup, List.dedup]

end Abacus
